import Mathlib

/-!
Formal model of the adaptive-bitrate HLS packaging pipeline of the
`video-streaming` repository (class `VideoService` in the video service
module, plus its configuration `CONSTANTS.BITRATE_LADDER` from
`src/config/env.ts`, the `VideoProcessingJob` type from
`src/types/index.ts`, and the metadata merge in the upload handler).

The JavaScript/TypeScript source is embedded shallowly:
  * machine/JS numbers that can only hold non-negative integers here are
    `Nat`/`Int`; `NaN`-producing operations (`parseInt` on a non-digit
    prefix) are modelled with `Option` (`none` = `NaN`);
  * timestamps (`Date.now()`, ISO strings parsed back with `new Date`)
    are epoch milliseconds, `Int`;
  * the asynchronous control flow of `convertToHLS` is modelled as a
    function of the externally supplied outcomes: the list of per-variant
    ffmpeg encode results, the interleaved sequence of progress events,
    and the thumbnail outcome.  Completion order of concurrent variant
    encodes is represented in ladder order.
-/

set_option maxRecDepth 10000

/-- Job status union type of `VideoProcessingJob` in `src/types/index.ts`:
`'queued' | 'processing' | 'completed' | 'failed'`. -/
inductive JobStatus
  | queued
  | processing
  | completed
  | failed
deriving DecidableEq

/-- The TypeScript string literal each status value denotes. -/
def JobStatus.str : JobStatus → String
  | .queued => "queued"
  | .processing => "processing"
  | .completed => "completed"
  | .failed => "failed"

/-- `VideoProcessingJob` from `src/types/index.ts` (times as epoch ms). -/
structure VideoProcessingJob where
  id : String
  videoId : String
  status : JobStatus
  progress : Int
  startedAt : Option Int
  completedAt : Option Int
  error : Option String
  outputPaths : List String
deriving DecidableEq

/-- One entry of `CONSTANTS.BITRATE_LADDER` (`src/config/env.ts`). -/
structure Variant where
  resolution : String
  videoBitrate : String
  audioBitrate : String
  name : String
deriving DecidableEq

/-- `CONSTANTS.BITRATE_LADDER` from `src/config/env.ts`. -/
def BITRATE_LADDER : List Variant :=
  [ ⟨"426x240", "400k", "64k", "240p"⟩,
    ⟨"640x360", "800k", "96k", "360p"⟩,
    ⟨"854x480", "1200k", "128k", "480p"⟩,
    ⟨"1280x720", "2500k", "128k", "720p"⟩,
    ⟨"1920x1080", "5000k", "192k", "1080p"⟩ ]

/-- Replace the first occurrence of `pat` in a character list by `rep`
(the semantics of JavaScript `String.prototype.replace` with a string
pattern). -/
def replaceFirstAux (rep : List Char) : List Char → List Char → List Char
  | [], _ => []
  | c :: rest, pat =>
      if pat.isPrefixOf (c :: rest) then rep ++ (c :: rest).drop pat.length
      else c :: replaceFirstAux rep rest pat

/-- JavaScript `s.replace(pat, rep)` for string patterns (first occurrence
only). -/
def jsReplace (s pat rep : String) : String :=
  ⟨replaceFirstAux rep.data s.data pat.data⟩

/-- JavaScript `parseInt(s)` restricted to the shapes arising here: the
longest prefix of decimal digits is read in base 10; an empty digit prefix
gives `NaN`, modelled as `none`. -/
def jsParseInt (s : String) : Option Nat :=
  let ds := s.data.takeWhile Char.isDigit
  if ds.isEmpty then none
  else some (ds.foldl (fun acc c => acc * 10 + (c.toNat - 48)) 0)

/-- JS addition of possibly-`NaN` numbers. -/
def jsAdd : Option Nat → Option Nat → Option Nat
  | some a, some b => some (a + b)
  | _, _ => none

/-- JS template interpolation of a possibly-`NaN` number. -/
def jsNumStr : Option Nat → String
  | some n => toString n
  | none => "NaN"

/-- The `bandwidth` computed per variant in `generateMasterPlaylist`:
`parseInt(variant.videoBitrate.replace('k', '000')) +
 parseInt(variant.audioBitrate.replace('k', '000'))`. -/
def bandwidthOf (v : Variant) : Option Nat :=
  jsAdd (jsParseInt (jsReplace v.videoBitrate "k" "000"))
        (jsParseInt (jsReplace v.audioBitrate "k" "000"))

/-- The `#EXT-X-STREAM-INF` line emitted for a variant. -/
def streamInfLine (v : Variant) : String :=
  "#EXT-X-STREAM-INF:BANDWIDTH=" ++ jsNumStr (bandwidthOf v)
    ++ ",RESOLUTION=" ++ v.resolution
    ++ ",CODECS=\"avc1.42e00a,mp4a.40.2\""

/-- The three array elements pushed per variant by the loop in
`generateMasterPlaylist`. -/
def variantLines (v : Variant) : List String :=
  [streamInfLine v, v.name ++ "/playlist.m3u8", ""]

/-- The full text written to `master.m3u8` by `generateMasterPlaylist`:
the initial header array `['#EXTM3U', '#EXT-X-VERSION:3', '']`, extended
per variant, then `join('\n')`. -/
def generateMasterPlaylist (ladder : List Variant) : String :=
  String.intercalate "\n"
    (["#EXTM3U", "#EXT-X-VERSION:3", ""] ++ (ladder.map variantLines).flatten)

/-- Modelled from the spec: the per-entry block as the claim words it —
a blank line, then the `#EXT-X-STREAM-INF` line, then the
`<name>/playlist.m3u8` line. -/
def specVariantLines (v : Variant) : List String :=
  ["", streamInfLine v, v.name ++ "/playlist.m3u8"]

/-- Modelled from the spec: the whole master playlist as the claim words
it — the two header lines, one block per ladder entry in ladder order,
and a trailing blank line. -/
def specMasterPlaylist (ladder : List Variant) : String :=
  String.intercalate "\n"
    (["#EXTM3U", "#EXT-X-VERSION:3"] ++ (ladder.map specVariantLines).flatten ++ [""])

/-- The two-entry ladder of the spec's concrete scenario. -/
def twoEntryLadder : List Variant :=
  [ ⟨"426x240", "400k", "64k", "240p"⟩,
    ⟨"640x360", "800k", "96k", "360p"⟩ ]

/-- The numeric kilobit rates (video, audio) behind the configured
ladder's bitrate strings. -/
def ladderKiloRates : List (Nat × Nat) :=
  [(400, 64), (800, 96), (1200, 128), (2500, 128), (5000, 192)]

/-- The `Math.round` of the `on('progress')` handler in `convertToHLS`:
`Math.round(((index + (progress.percent || 0) / 100) / N) * 100)` where
`N = CONSTANTS.BITRATE_LADDER.length`.  JavaScript `Math.round x` is
`⌊x + 1/2⌋`, which is Mathlib's `round` on `ℚ`. -/
def overallProgress (N idx : Nat) (percent : ℚ) : Int :=
  round ((((idx : ℚ) + percent / 100) / (N : ℚ)) * 100)

/-- Effect of one encoder progress event on the job record:
`job.progress = overallProgress` — a plain overwrite of the stored value. -/
def applyProgress (N : Nat) (j : VideoProcessingJob) (e : Nat × ℚ) : VideoProcessingJob :=
  { j with progress := overallProgress N e.1 e.2 }

/-- The job record as `convertToHLS` constructs it and immediately inserts
into `processingJobs` (lines creating `const job` with
`status: 'processing', progress: 0, startedAt: ..., outputPaths: []`). -/
def initialJob (jobId videoId : String) (t0 : Int) : VideoProcessingJob :=
  ⟨jobId, videoId, .processing, 0, some t0, none, none, []⟩

/-- Outcome of one variant's ffmpeg encode: the `'end'` event, or the
`'error'` event carrying the error message. -/
inductive EncodeResult
  | ok
  | fail (msg : String)
deriving DecidableEq

/-- The error with which `Promise.all` over the variant encodes rejects:
the message of a failed variant (represented by the first failure in
ladder order; which in-flight rejection wins first is nondeterministic in
the source, but some failed variant's message is always the one seen). -/
def firstFailureMsg : List EncodeResult → Option String
  | [] => none
  | .ok :: rest => firstFailureMsg rest
  | .fail msg :: _ => some msg

/-- Outcome of the thumbnail screenshot run (its `'end'` or `'error'`
event). -/
inductive ThumbOutcome
  | ok
  | fail
deriving DecidableEq

/-- `generateThumbnail`: resolves the thumbnail path on success and
resolves `null` on ffmpeg error — it never rejects. -/
def generateThumbnail (outputDir : String) : ThumbOutcome → Option String
  | .ok => some (outputDir ++ "/thumbnail.jpg")
  | .fail => none

/-- `path.join(variantDir, 'playlist.m3u8')` for a variant's directory. -/
def variantPlaylistPath (outputDir : String) (v : Variant) : String :=
  outputDir ++ "/" ++ v.name ++ "/playlist.m3u8"

/-- The local `outputPaths` array at the end of a fully successful run:
every variant playlist, then the master playlist, then the thumbnail if
one was produced. -/
def successPaths (outputDir : String) (thumb : ThumbOutcome) : List String :=
  BITRATE_LADDER.map (variantPlaylistPath outputDir)
    ++ [outputDir ++ "/master.m3u8"]
    ++ (match generateThumbnail outputDir thumb with
        | some p => [p]
        | none => [])

/-- The final mutation `convertToHLS` applies to the job record: the
success epilogue (status, progress 100, completedAt, outputPaths) or the
`catch` branch (status failed, error message, completedAt — the job's
`outputPaths` is left untouched). -/
def finalizeJob (outputDir : String) (t1 : Int) (outcomes : List EncodeResult)
    (thumb : ThumbOutcome) (j : VideoProcessingJob) : VideoProcessingJob :=
  match firstFailureMsg outcomes with
  | some msg => { j with status := .failed, error := some msg, completedAt := some t1 }
  | none => { j with status := .completed, progress := 100, completedAt := some t1,
                     outputPaths := successPaths outputDir thumb }

/-- Observable outcome of one `convertToHLS` run: the final job record,
the content of `master.m3u8` if it was written, the variant playlists
durably written by succeeding encodes, and the value returned / error
thrown. -/
structure RunResult where
  job : VideoProcessingJob
  masterFile : Option String
  writtenVariantPlaylists : List String
  retVal : Except String (List String)

/-- Shallow embedding of `convertToHLS`, as a function of the externally
supplied encode outcomes, progress-event interleaving and thumbnail
outcome.  The master playlist is generated only after `Promise.all` over
all variant encodes resolves; on any failure the `catch` branch runs
instead and rethrows. -/
def convertToHLS (outputDir videoId jobId : String) (t0 t1 : Int)
    (events : List (Nat × ℚ)) (outcomes : List EncodeResult)
    (thumb : ThumbOutcome) : RunResult :=
  let N := BITRATE_LADDER.length
  let j := events.foldl (applyProgress N) (initialJob jobId videoId t0)
  { job := finalizeJob outputDir t1 outcomes thumb j
    masterFile :=
      match firstFailureMsg outcomes with
      | some _ => none
      | none => some (generateMasterPlaylist BITRATE_LADDER)
    writtenVariantPlaylists :=
      ((BITRATE_LADDER.zip outcomes).filter
        (fun p => match p.2 with | .ok => true | .fail _ => false)).map
        (fun p => variantPlaylistPath outputDir p.1)
    retVal :=
      match firstFailureMsg outcomes with
      | some msg => .error msg
      | none => .ok (successPaths outputDir thumb) }

/-- Every state of the job record observable through `getProcessingJob`
during one run, in mutation order: the state at insertion, the state
after each progress event, and the final state. -/
def jobTrace (outputDir videoId jobId : String) (t0 t1 : Int)
    (events : List (Nat × ℚ)) (outcomes : List EncodeResult)
    (thumb : ThumbOutcome) : List VideoProcessingJob :=
  let N := BITRATE_LADDER.length
  List.scanl (applyProgress N) (initialJob jobId videoId t0) events
    ++ [(convertToHLS outputDir videoId jobId t0 t1 events outcomes thumb).job]

/-- `cleanupOldJobs(maxAgeHours)`: deletes from the job map every entry
whose `completedAt` parses to a time strictly before
`Date.now() - maxAgeHours * 60 * 60 * 1000`; entries without
`completedAt` are not examined further.  The map is a list of
`(jobId, job)` entries; times are epoch ms. -/
def cleanupOldJobs (jobs : List (String × VideoProcessingJob)) (now : Int)
    (maxAgeHours : Int) : List (String × VideoProcessingJob) :=
  let cutoff := now - maxAgeHours * 60 * 60 * 1000
  jobs.filter (fun p =>
    match p.2.completedAt with
    | some t => if t < cutoff then false else true
    | none => true)

/-- The fields of the ffprobe result that `getVideoMetadata` reads,
each `Option` (`none` = absent/undefined); `hasVideo` is whether
`streams.find(s => s.codec_type === 'video')` finds a stream.  Optional
fields of the audio stream are flattened in. -/
structure FfprobeData where
  hasVideo : Bool
  duration : Option ℚ
  size : Option Nat
  bit_rate : Option Nat
  width : Option Nat
  height : Option Nat
  codec_name : Option String
  audioCodecName : Option String
  r_frame_rate : Option String
deriving DecidableEq

/-- `parseFrameRate`: `"30/1" -> 30`; a missing string gives `0`.  JS
numbers that are not finite integers (NaN from a non-numeric part,
Infinity from a zero denominator) are modelled as `none`. -/
def parseFrameRate : Option String → Option Int
  | none => some 0
  | some s =>
      let parts := s.splitOn "/"
      let numStr := parts.headD ""
      let denStr := parts.getD 1 "1"
      match jsParseInt (if numStr = "" then "0" else numStr),
            jsParseInt (if denStr = "" then "1" else denStr) with
      | some a, some b => if b = 0 then none else some (round ((a : ℚ) / (b : ℚ)))
      | _, _ => none

/-- The `Partial<VideoMetadata>` that `getVideoMetadata` resolves with:
each field already carries its `|| 0` / `|| 'unknown'` default. -/
structure ProbedMeta where
  duration : ℚ
  size : Nat
  width : Nat
  height : Nat
  bitrate : Nat
  codec : String
  audioCodec : String
  frameRate : Option Int
deriving DecidableEq

/-- `getVideoMetadata`: rejects when ffprobe errored or no video stream
exists; otherwise resolves the defaulted field record. -/
def getVideoMetadata (probe : Except String FfprobeData) : Except String ProbedMeta :=
  match probe with
  | .error e => .error e
  | .ok d =>
      if d.hasVideo then
        .ok { duration := d.duration.getD 0
              size := d.size.getD 0
              width := d.width.getD 0
              height := d.height.getD 0
              bitrate := d.bit_rate.getD 0
              codec := d.codec_name.getD "unknown"
              audioCodec := d.audioCodecName.getD "unknown"
              frameRate := parseFrameRate d.r_frame_rate }
      else .error "No video stream found"

/-- The metadata-relevant fields of the `VideoMetadata` object stored by
`uploadVideo` (`audioCodec` is optional and absent initially). -/
structure StoredVideoMeta where
  duration : ℚ
  size : Nat
  width : Nat
  height : Nat
  bitrate : Nat
  codec : String
  audioCodec : Option String
  frameRate : Option Int
deriving DecidableEq

/-- The defaults `uploadVideo` writes into `videoMetadata` before
probing: duration 0, size from the uploaded file, 0×0, bitrate 0, codec
"unknown", frameRate 0. -/
def initialVideoMetadata (fileSize : Nat) : StoredVideoMeta :=
  { duration := 0, size := fileSize, width := 0, height := 0, bitrate := 0,
    codec := "unknown", audioCodec := none, frameRate := some 0 }

/-- The metadata actually stored by `uploadVideo`: on probe success
`Object.assign` overwrites the defaults with the probed record; any
`getVideoMetadata` rejection is caught (and logged) and the defaults are
kept. -/
def uploadVideoMeta (fileSize : Nat) (probe : Except String FfprobeData) : StoredVideoMeta :=
  match getVideoMetadata probe with
  | .error _ => initialVideoMetadata fileSize
  | .ok m =>
      { duration := m.duration, size := m.size, width := m.width,
        height := m.height, bitrate := m.bitrate, codec := m.codec,
        audioCodec := some m.audioCodec, frameRate := m.frameRate }

/-- A job whose `completedAt` lies 25 hours before epoch time 0. -/
def cleanupDemoOld : VideoProcessingJob :=
  ⟨"a", "v1", JobStatus.completed, 100, some (-100000000), some (-90000000), none, []⟩

/-- A job whose `completedAt` lies 23 hours before epoch time 0. -/
def cleanupDemoRecent : VideoProcessingJob :=
  ⟨"b", "v2", JobStatus.completed, 100, some (-90000000), some (-82800000), none, []⟩

/-- A still-running job (no `completedAt`) started 100 hours before
epoch time 0. -/
def cleanupDemoRunning : VideoProcessingJob :=
  ⟨"c", "v3", JobStatus.processing, 40, some (-360000000), none, none, []⟩

/-- A demo job map holding the three jobs above. -/
def cleanupDemoJobs : List (String × VideoProcessingJob) :=
  [("a", cleanupDemoOld), ("b", cleanupDemoRecent), ("c", cleanupDemoRunning)]

/-- An ffprobe result with a video stream but every optional field
absent. -/
def probeDemoVideoOnly : FfprobeData :=
  ⟨true, none, none, none, none, none, none, none, none⟩

/-- An ffprobe result with no video stream (so `getVideoMetadata`
rejects) even though other fields are present. -/
def probeDemoNoVideo : FfprobeData :=
  ⟨false, some 7, some 1, some 2, some 3, some 4, some "h264", some "aac", some "30/1"⟩

/-- Pushing the per-variant blocks after a trailing blank header line is
the same line list as blank-line-led blocks followed by one trailing
blank line. -/
theorem blankShift (l : List Variant) :
    [""] ++ (l.map variantLines).flatten = (l.map specVariantLines).flatten ++ [""] := by
  induction l with
  | nil => rfl
  | cons v vs ih =>
      simp only [List.singleton_append] at ih
      simp only [List.map_cons, List.flatten_cons, variantLines, specVariantLines,
        List.cons_append, List.nil_append, List.append_assoc, List.singleton_append]
      rw [← ih]

/-- The emitted master playlist coincides with the spec's template for
every ladder. -/
theorem master_eq_spec (l : List Variant) :
    generateMasterPlaylist l = specMasterPlaylist l := by
  unfold generateMasterPlaylist specMasterPlaylist
  congr 1
  have h := blankShift l
  simp only [List.singleton_append] at h
  simp only [List.cons_append, List.nil_append, List.append_assoc]
  rw [← h]

/-- Every job state reachable through progress events alone keeps the
`outputPaths` and `status` of the state it started from. -/
theorem scanlProgressState (N : Nat) (events : List (Nat × ℚ)) (j0 : VideoProcessingJob) :
    ∀ j ∈ List.scanl (applyProgress N) j0 events,
      j.outputPaths = j0.outputPaths ∧ j.status = j0.status := by
  induction events generalizing j0 with
  | nil =>
      intro j hj
      simp [List.scanl] at hj
      subst hj
      exact ⟨rfl, rfl⟩
  | cons e es ih =>
      intro j hj
      rw [List.scanl] at hj
      rcases List.mem_cons.mp hj with rfl | hj2
      · exact ⟨rfl, rfl⟩
      · have h2 := ih (applyProgress N j0 e) j hj2
        simpa [applyProgress] using h2

/-- Folding progress events over a job state keeps its `outputPaths` and
`status`. -/
theorem foldlProgressState (N : Nat) (events : List (Nat × ℚ)) (j0 : VideoProcessingJob) :
    (events.foldl (applyProgress N) j0).outputPaths = j0.outputPaths
      ∧ (events.foldl (applyProgress N) j0).status = j0.status := by
  induction events generalizing j0 with
  | nil => exact ⟨rfl, rfl⟩
  | cons e es ih => simpa [List.foldl, applyProgress] using ih (applyProgress N j0 e)

/-- C1: on every successful job the file written to `master.m3u8` is
`generateMasterPlaylist` of the configured ladder; for every ladder that
text is, byte for byte, the claim's template (headers, then per entry a
blank line, the `#EXT-X-STREAM-INF` line and the `<name>/playlist.m3u8`
line, with a trailing blank line); and on the two-entry scenario ladder
it equals exactly the concrete bytes of the §8 scenario. -/
theorem c1_master_playlist (ladder : List Variant) (outputDir videoId jobId : String)
    (t0 t1 : Int) (events : List (Nat × ℚ)) (outcomes : List EncodeResult)
    (thumb : ThumbOutcome) (h : firstFailureMsg outcomes = none) :
    (convertToHLS outputDir videoId jobId t0 t1 events outcomes thumb).masterFile
        = some (generateMasterPlaylist BITRATE_LADDER)
      ∧ generateMasterPlaylist ladder = specMasterPlaylist ladder
      ∧ generateMasterPlaylist twoEntryLadder
        = "#EXTM3U\n#EXT-X-VERSION:3\n\n#EXT-X-STREAM-INF:BANDWIDTH=464000,RESOLUTION=426x240,CODECS=\"avc1.42e00a,mp4a.40.2\"\n240p/playlist.m3u8\n\n#EXT-X-STREAM-INF:BANDWIDTH=896000,RESOLUTION=640x360,CODECS=\"avc1.42e00a,mp4a.40.2\"\n360p/playlist.m3u8\n" := by
  refine ⟨?_, master_eq_spec ladder, by decide⟩
  simp [convertToHLS, h]

/-- Witness for C1 at a concrete successful run. -/
theorem c1_master_playlist_witness :
    firstFailureMsg [EncodeResult.ok, EncodeResult.ok, EncodeResult.ok, EncodeResult.ok,
        EncodeResult.ok] = none
      ∧ ((convertToHLS "out" "v" "j" 0 1 []
            [EncodeResult.ok, EncodeResult.ok, EncodeResult.ok, EncodeResult.ok, EncodeResult.ok]
            ThumbOutcome.ok).masterFile
          = some (generateMasterPlaylist BITRATE_LADDER)
        ∧ generateMasterPlaylist BITRATE_LADDER = specMasterPlaylist BITRATE_LADDER
        ∧ generateMasterPlaylist twoEntryLadder
          = "#EXTM3U\n#EXT-X-VERSION:3\n\n#EXT-X-STREAM-INF:BANDWIDTH=464000,RESOLUTION=426x240,CODECS=\"avc1.42e00a,mp4a.40.2\"\n240p/playlist.m3u8\n\n#EXT-X-STREAM-INF:BANDWIDTH=896000,RESOLUTION=640x360,CODECS=\"avc1.42e00a,mp4a.40.2\"\n360p/playlist.m3u8\n") :=
  ⟨by decide,
    c1_master_playlist BITRATE_LADDER "out" "v" "j" 0 1 []
      [EncodeResult.ok, EncodeResult.ok, EncodeResult.ok, EncodeResult.ok, EncodeResult.ok]
      ThumbOutcome.ok (by decide)⟩

/-- C2: each of the configured ladder's bitrate strings is of the form
`<n>k`, and the `BANDWIDTH` value emitted for each entry is exactly
`n_video * 1000 + n_audio * 1000` bits per second (in particular
`400k + 64k = 464000`). -/
theorem c2_bandwidth_exact :
    BITRATE_LADDER.map Variant.videoBitrate
        = ladderKiloRates.map (fun p => toString p.1 ++ "k")
      ∧ BITRATE_LADDER.map Variant.audioBitrate
        = ladderKiloRates.map (fun p => toString p.2 ++ "k")
      ∧ BITRATE_LADDER.map bandwidthOf
        = ladderKiloRates.map (fun p => some (p.1 * 1000 + p.2 * 1000)) :=
  ⟨by decide, by decide, by decide⟩

/-- C3 counterexample: the progress handler overwrites the stored value
without taking a max, so a later, smaller value computed for an
earlier-index rendition regresses the stored progress (here from 90 down
to 4); moreover a job can end `failed` with stored progress 100, so a
final value of 100 does not imply status completed. -/
theorem c3_progress_counterexample :
    ((jobTrace "out" "v" "j" 0 1 [(4, 50), (0, 20)] [EncodeResult.ok] ThumbOutcome.ok).map
        VideoProcessingJob.progress = [0, 90, 4, 100])
      ∧ ¬ ((90 : ℤ) ≤ 4)
      ∧ (convertToHLS "out" "v" "j" 0 1 [(4, 100)] [EncodeResult.fail "boom"]
            ThumbOutcome.ok).job.status = JobStatus.failed
      ∧ (convertToHLS "out" "v" "j" 0 1 [(4, 100)] [EncodeResult.fail "boom"]
            ThumbOutcome.ok).job.progress = 100 := by
  refine ⟨?_, by decide, ?_, ?_⟩ <;>
    norm_num [jobTrace, convertToHLS, applyProgress, finalizeJob, firstFailureMsg,
      initialJob, overallProgress, round_eq, List.scanl, BITRATE_LADDER]

/-- C3 amended: each progress update stores the newly computed value,
overwriting the old one (no max is taken, so the stored progress can
decrease across interleavings), and a job whose renditions all succeed
ends with status completed and progress exactly 100. -/
theorem c3_progress_amended (N : Nat) (j : VideoProcessingJob) (i : Nat) (pc : ℚ)
    (outputDir videoId jobId : String) (t0 t1 : Int) (events : List (Nat × ℚ))
    (outcomes : List EncodeResult) (thumb : ThumbOutcome)
    (h : firstFailureMsg outcomes = none) :
    (applyProgress N j (i, pc)).progress = overallProgress N i pc
      ∧ (convertToHLS outputDir videoId jobId t0 t1 events outcomes thumb).job.status
          = JobStatus.completed
      ∧ (convertToHLS outputDir videoId jobId t0 t1 events outcomes thumb).job.progress
          = 100 := by
  refine ⟨rfl, ?_, ?_⟩ <;> simp [convertToHLS, finalizeJob, h]

/-- Witness for the amended C3 at a concrete successful run. -/
theorem c3_progress_amended_witness :
    firstFailureMsg [EncodeResult.ok] = none
      ∧ ((applyProgress 5 (initialJob "j" "v" 0) (2, 40)).progress = overallProgress 5 2 40
        ∧ (convertToHLS "out" "v" "j" 0 1 [] [EncodeResult.ok] ThumbOutcome.ok).job.status
            = JobStatus.completed
        ∧ (convertToHLS "out" "v" "j" 0 1 [] [EncodeResult.ok] ThumbOutcome.ok).job.progress
            = 100) :=
  ⟨by decide,
    c3_progress_amended 5 (initialJob "j" "v" 0) 2 40 "out" "v" "j" 0 1 []
      [EncodeResult.ok] ThumbOutcome.ok (by decide)⟩

/-- C4: if any rendition's encode fails, the job ends failed with the
failure's message recorded, no `master.m3u8` is written, and
`convertToHLS` rethrows the error. -/
theorem c4_all_or_nothing (outputDir videoId jobId : String) (t0 t1 : Int)
    (events : List (Nat × ℚ)) (outcomes : List EncodeResult) (thumb : ThumbOutcome)
    (msg : String) (h : firstFailureMsg outcomes = some msg) :
    (convertToHLS outputDir videoId jobId t0 t1 events outcomes thumb).job.status
        = JobStatus.failed
      ∧ (convertToHLS outputDir videoId jobId t0 t1 events outcomes thumb).job.error = some msg
      ∧ (convertToHLS outputDir videoId jobId t0 t1 events outcomes thumb).masterFile = none
      ∧ (convertToHLS outputDir videoId jobId t0 t1 events outcomes thumb).retVal
          = Except.error msg := by
  refine ⟨?_, ?_, ?_, ?_⟩ <;> simp [convertToHLS, finalizeJob, h]

/-- Witness for C4 at a concrete run whose second rendition fails. -/
theorem c4_all_or_nothing_witness :
    firstFailureMsg [EncodeResult.ok, EncodeResult.fail "boom"] = some "boom"
      ∧ ((convertToHLS "out" "v" "j" 0 1 [] [EncodeResult.ok, EncodeResult.fail "boom"]
            ThumbOutcome.ok).job.status = JobStatus.failed
        ∧ (convertToHLS "out" "v" "j" 0 1 [] [EncodeResult.ok, EncodeResult.fail "boom"]
            ThumbOutcome.ok).job.error = some "boom"
        ∧ (convertToHLS "out" "v" "j" 0 1 [] [EncodeResult.ok, EncodeResult.fail "boom"]
            ThumbOutcome.ok).masterFile = none
        ∧ (convertToHLS "out" "v" "j" 0 1 [] [EncodeResult.ok, EncodeResult.fail "boom"]
            ThumbOutcome.ok).retVal = Except.error "boom") :=
  ⟨by decide,
    c4_all_or_nothing "out" "v" "j" 0 1 [] [EncodeResult.ok, EncodeResult.fail "boom"]
      ThumbOutcome.ok "boom" (by decide)⟩

/-- C5 counterexample: the first job state visible to lookups already has
status "processing", not "pending" — the job is never pending. -/
theorem c5_initial_status_counterexample :
    ((jobTrace "out" "v" "j" 0 1 [] [EncodeResult.ok] ThumbOutcome.ok).head?).map
        (fun j => (j.status.str, j.progress)) = some ("processing", 0)
      ∧ "processing" ≠ "pending" :=
  ⟨by decide, by decide⟩

/-- C5 amended: the job record is created with status processing (the
status type has no pending value; its idle value "queued" is never used)
and progress 0, and that record — processing, progress 0, empty
outputPaths — is the first state visible to lookups. -/
theorem c5_initial_status_amended (outputDir videoId jobId : String) (t0 t1 : Int)
    (events : List (Nat × ℚ)) (outcomes : List EncodeResult) (thumb : ThumbOutcome) :
    (jobTrace outputDir videoId jobId t0 t1 events outcomes thumb).head?
        = some (initialJob jobId videoId t0)
      ∧ (initialJob jobId videoId t0).status = JobStatus.processing
      ∧ (initialJob jobId videoId t0).progress = 0
      ∧ (initialJob jobId videoId t0).outputPaths = [] := by
  refine ⟨?_, rfl, rfl, rfl⟩
  cases events <;> simp [jobTrace, List.scanl]

/-- C6: `cleanupOldJobs maxAgeHours` keeps exactly the entries that are
not completed strictly earlier than `maxAgeHours` before now; a job with
no `completedAt` is never removed regardless of its `startedAt`; and
concretely with maxAge 24 a job completed 25 hours ago is gone while one
completed 23 hours ago and a 100-hour-old running job remain. -/
theorem c6_eviction (jobs : List (String × VideoProcessingJob)) (now maxAge : Int)
    (e : String × VideoProcessingJob) :
    (e ∈ cleanupOldJobs jobs now maxAge
        ↔ e ∈ jobs ∧ ∀ t, e.2.completedAt = some t → ¬ t < now - maxAge * 60 * 60 * 1000)
      ∧ (e.2.completedAt = none → (e ∈ cleanupOldJobs jobs now maxAge ↔ e ∈ jobs))
      ∧ ("a", cleanupDemoOld) ∉ cleanupOldJobs cleanupDemoJobs 0 24
      ∧ ("b", cleanupDemoRecent) ∈ cleanupOldJobs cleanupDemoJobs 0 24
      ∧ ("c", cleanupDemoRunning) ∈ cleanupOldJobs cleanupDemoJobs 0 24 := by
  have hmain : e ∈ cleanupOldJobs jobs now maxAge
      ↔ e ∈ jobs ∧ ∀ t, e.2.completedAt = some t → ¬ t < now - maxAge * 60 * 60 * 1000 := by
    simp only [cleanupOldJobs, List.mem_filter]
    refine and_congr_right fun _ => ?_
    cases h : e.2.completedAt with
    | none => simp [h]
    | some t =>
        have hred : (match some t with
            | some t => if t < now - maxAge * 60 * 60 * 1000 then false else true
            | none => true)
            = (if t < now - maxAge * 60 * 60 * 1000 then false else true) := rfl
        rw [hred]
        split_ifs with ht <;> simp [ht] <;> omega
  refine ⟨hmain, fun hn => ?_, by decide, by decide, by decide⟩
  rw [hmain]
  simp [hn]

/-- Witness for C6 at the concrete demo job map and a concrete entry. -/
theorem c6_eviction_witness :
    (("c", cleanupDemoRunning) ∈ cleanupOldJobs cleanupDemoJobs 0 24
        ↔ ("c", cleanupDemoRunning) ∈ cleanupDemoJobs
          ∧ ∀ t, cleanupDemoRunning.completedAt = some t → ¬ t < 0 - 24 * 60 * 60 * 1000)
      ∧ (cleanupDemoRunning.completedAt = none
          → (("c", cleanupDemoRunning) ∈ cleanupOldJobs cleanupDemoJobs 0 24
            ↔ ("c", cleanupDemoRunning) ∈ cleanupDemoJobs))
      ∧ ("a", cleanupDemoOld) ∉ cleanupOldJobs cleanupDemoJobs 0 24
      ∧ ("b", cleanupDemoRecent) ∈ cleanupOldJobs cleanupDemoJobs 0 24
      ∧ ("c", cleanupDemoRunning) ∈ cleanupOldJobs cleanupDemoJobs 0 24 :=
  c6_eviction cleanupDemoJobs 0 24 ("c", cleanupDemoRunning)

/-- C7: with every rendition succeeding, a failing thumbnail leaves the
job completed with progress 100 and the same status, progress and
completion time as a succeeding thumbnail; `convertToHLS` still returns
normally, and the only difference is that no thumbnail path is recorded
in outputPaths. -/
theorem c7_thumbnail_independence (outputDir videoId jobId : String) (t0 t1 : Int)
    (events : List (Nat × ℚ)) (outcomes : List EncodeResult)
    (h : firstFailureMsg outcomes = none) :
    (convertToHLS outputDir videoId jobId t0 t1 events outcomes ThumbOutcome.fail).job.status
        = JobStatus.completed
      ∧ (convertToHLS outputDir videoId jobId t0 t1 events outcomes
            ThumbOutcome.fail).job.progress = 100
      ∧ (convertToHLS outputDir videoId jobId t0 t1 events outcomes
            ThumbOutcome.fail).job.completedAt = some t1
      ∧ (convertToHLS outputDir videoId jobId t0 t1 events outcomes ThumbOutcome.fail).job.status
          = (convertToHLS outputDir videoId jobId t0 t1 events outcomes ThumbOutcome.ok).job.status
      ∧ (convertToHLS outputDir videoId jobId t0 t1 events outcomes ThumbOutcome.fail).job.progress
          = (convertToHLS outputDir videoId jobId t0 t1 events outcomes ThumbOutcome.ok).job.progress
      ∧ (convertToHLS outputDir videoId jobId t0 t1 events outcomes
            ThumbOutcome.fail).job.completedAt
          = (convertToHLS outputDir videoId jobId t0 t1 events outcomes
              ThumbOutcome.ok).job.completedAt
      ∧ (convertToHLS outputDir videoId jobId t0 t1 events outcomes ThumbOutcome.fail).retVal
          = Except.ok ((convertToHLS outputDir videoId jobId t0 t1 events outcomes
              ThumbOutcome.fail).job.outputPaths)
      ∧ (convertToHLS outputDir videoId jobId t0 t1 events outcomes
            ThumbOutcome.fail).job.outputPaths
          = BITRATE_LADDER.map (variantPlaylistPath outputDir) ++ [outputDir ++ "/master.m3u8"]
      ∧ generateThumbnail outputDir ThumbOutcome.fail = none := by
  refine ⟨?_, ?_, ?_, ?_, ?_, ?_, ?_, ?_, rfl⟩ <;>
    simp [convertToHLS, finalizeJob, h, successPaths, generateThumbnail]

/-- Witness for C7 at a concrete all-success run. -/
theorem c7_thumbnail_independence_witness :
    firstFailureMsg [EncodeResult.ok] = none
      ∧ ((convertToHLS "out" "v" "j" 0 1 [] [EncodeResult.ok] ThumbOutcome.fail).job.status
          = JobStatus.completed
        ∧ (convertToHLS "out" "v" "j" 0 1 [] [EncodeResult.ok] ThumbOutcome.fail).job.progress = 100
        ∧ (convertToHLS "out" "v" "j" 0 1 [] [EncodeResult.ok] ThumbOutcome.fail).job.completedAt
            = some 1
        ∧ (convertToHLS "out" "v" "j" 0 1 [] [EncodeResult.ok] ThumbOutcome.fail).job.status
            = (convertToHLS "out" "v" "j" 0 1 [] [EncodeResult.ok] ThumbOutcome.ok).job.status
        ∧ (convertToHLS "out" "v" "j" 0 1 [] [EncodeResult.ok] ThumbOutcome.fail).job.progress
            = (convertToHLS "out" "v" "j" 0 1 [] [EncodeResult.ok] ThumbOutcome.ok).job.progress
        ∧ (convertToHLS "out" "v" "j" 0 1 [] [EncodeResult.ok] ThumbOutcome.fail).job.completedAt
            = (convertToHLS "out" "v" "j" 0 1 [] [EncodeResult.ok] ThumbOutcome.ok).job.completedAt
        ∧ (convertToHLS "out" "v" "j" 0 1 [] [EncodeResult.ok] ThumbOutcome.fail).retVal
            = Except.ok ((convertToHLS "out" "v" "j" 0 1 [] [EncodeResult.ok]
                ThumbOutcome.fail).job.outputPaths)
        ∧ (convertToHLS "out" "v" "j" 0 1 [] [EncodeResult.ok] ThumbOutcome.fail).job.outputPaths
            = BITRATE_LADDER.map (variantPlaylistPath "out") ++ ["out" ++ "/master.m3u8"]
        ∧ generateThumbnail "out" ThumbOutcome.fail = none) :=
  ⟨by decide,
    c7_thumbnail_independence "out" "v" "j" 0 1 [] [EncodeResult.ok] (by decide)⟩

/-- C8: for a rendition at ladder index i of N when its encoder reports
fractional progress p in [0,1] (ffmpeg's percent is 100·p), the stored
job progress is round(100·(i+p)/N), rounding to nearest (Math.round is
⌊x + 1/2⌋). -/
theorem c8_progress_formula (i N : Nat) (p : ℚ) (h0 : 0 ≤ p) (h1 : p ≤ 1) (hN : 0 < N) :
    overallProgress N i (100 * p) = round (100 * ((i : ℚ) + p) / N) := by
  unfold overallProgress
  have hN2 : (N : ℚ) ≠ 0 := Nat.cast_ne_zero.mpr hN.ne'
  congr 1
  field_simp
  ring

/-- Witness for C8 at i = 1, N = 5, p = 1/2. -/
theorem c8_progress_formula_witness :
    (0 : ℚ) ≤ 1/2 ∧ (1/2 : ℚ) ≤ 1 ∧ 0 < 5
      ∧ overallProgress 5 1 (100 * (1/2)) = round (100 * ((1 : ℚ) + 1/2) / 5) :=
  ⟨by norm_num, by norm_num, by norm_num,
    c8_progress_formula 1 5 (1/2) (by norm_num) (by norm_num) (by norm_num)⟩

/-- C9: a probe failure (ffprobe error or no video stream) is caught by
the upload handler and the stored metadata keeps all its defaults; on a
successful probe every field individually falls back to its default
(0 / "unknown" / frame rate 0) exactly when the corresponding ffprobe
field is absent. -/
theorem c9_probe_silent (fileSize : Nat) (emsg : String) (d d2 : FfprobeData)
    (h : d.hasVideo = true) (h2 : d2.hasVideo = false) :
    uploadVideoMeta fileSize (Except.error emsg) = initialVideoMetadata fileSize
      ∧ uploadVideoMeta fileSize (Except.ok d2) = initialVideoMetadata fileSize
      ∧ uploadVideoMeta fileSize (Except.ok d)
        = { duration := d.duration.getD 0, size := d.size.getD 0,
            width := d.width.getD 0, height := d.height.getD 0,
            bitrate := d.bit_rate.getD 0, codec := d.codec_name.getD "unknown",
            audioCodec := some (d.audioCodecName.getD "unknown"),
            frameRate := parseFrameRate d.r_frame_rate }
      ∧ parseFrameRate none = some 0 := by
  refine ⟨rfl, ?_, ?_, rfl⟩ <;>
    simp [uploadVideoMeta, getVideoMetadata, h, h2, initialVideoMetadata]

/-- Witness for C9 at concrete probe results. -/
theorem c9_probe_silent_witness :
    probeDemoVideoOnly.hasVideo = true
      ∧ probeDemoNoVideo.hasVideo = false
      ∧ (uploadVideoMeta 5 (Except.error "boom") = initialVideoMetadata 5
        ∧ uploadVideoMeta 5 (Except.ok probeDemoNoVideo) = initialVideoMetadata 5
        ∧ uploadVideoMeta 5 (Except.ok probeDemoVideoOnly)
          = { duration := probeDemoVideoOnly.duration.getD 0,
              size := probeDemoVideoOnly.size.getD 0,
              width := probeDemoVideoOnly.width.getD 0,
              height := probeDemoVideoOnly.height.getD 0,
              bitrate := probeDemoVideoOnly.bit_rate.getD 0,
              codec := probeDemoVideoOnly.codec_name.getD "unknown",
              audioCodec := some (probeDemoVideoOnly.audioCodecName.getD "unknown"),
              frameRate := parseFrameRate probeDemoVideoOnly.r_frame_rate }
        ∧ parseFrameRate none = some 0) :=
  ⟨rfl, rfl, c9_probe_silent 5 "boom" probeDemoVideoOnly probeDemoNoVideo rfl rfl⟩

/-- C10: at every observable point of a run, a job state that is not
completed has empty outputPaths (so every failed job ends with empty
outputPaths, even though succeeding variants durably wrote their
playlists), and the completed final state carries the full artifact list
at once. -/
theorem c10_outputPaths_atomic (outputDir videoId jobId : String) (t0 t1 : Int)
    (events : List (Nat × ℚ)) (outcomes : List EncodeResult) (thumb : ThumbOutcome)
    (j : VideoProcessingJob)
    (hj : j ∈ jobTrace outputDir videoId jobId t0 t1 events outcomes thumb) :
    (j.status ≠ JobStatus.completed → j.outputPaths = [])
      ∧ (j.status = JobStatus.completed → j.outputPaths = successPaths outputDir thumb) := by
  have hunfold : jobTrace outputDir videoId jobId t0 t1 events outcomes thumb
      = List.scanl (applyProgress BITRATE_LADDER.length) (initialJob jobId videoId t0) events
        ++ [(convertToHLS outputDir videoId jobId t0 t1 events outcomes thumb).job] := rfl
  rw [hunfold] at hj
  rcases List.mem_append.mp hj with hs | hf
  · have h2 := scanlProgressState BITRATE_LADDER.length events (initialJob jobId videoId t0) j hs
    refine ⟨fun _ => ?_, fun hc => ?_⟩
    · simpa [initialJob] using h2.1
    · exfalso
      rw [h2.2] at hc
      simp [initialJob] at hc
  · have hj2 : j = (convertToHLS outputDir videoId jobId t0 t1 events outcomes thumb).job := by
      simpa using hf
    subst hj2
    have hcv : (convertToHLS outputDir videoId jobId t0 t1 events outcomes thumb).job
        = finalizeJob outputDir t1 outcomes thumb
            (events.foldl (applyProgress BITRATE_LADDER.length) (initialJob jobId videoId t0)) := rfl
    rw [hcv]
    have hfold := foldlProgressState BITRATE_LADDER.length events (initialJob jobId videoId t0)
    cases hff : firstFailureMsg outcomes with
    | some msg =>
        refine ⟨fun _ => ?_, fun hc => ?_⟩
        · simp only [finalizeJob, hff]
          simpa [initialJob] using hfold.1
        · exfalso
          simp [finalizeJob, hff] at hc
    | none =>
        refine ⟨fun hne => ?_, fun _ => ?_⟩
        · exact absurd (by simp [finalizeJob, hff]) hne
        · simp [finalizeJob, hff]

/-- Witness for C10 at the first observable state of a concrete run. -/
theorem c10_outputPaths_atomic_witness :
    (initialJob "j" "v" 0) ∈ jobTrace "out" "v" "j" 0 1 [] [EncodeResult.ok] ThumbOutcome.ok
      ∧ (((initialJob "j" "v" 0).status ≠ JobStatus.completed
            → (initialJob "j" "v" 0).outputPaths = [])
        ∧ ((initialJob "j" "v" 0).status = JobStatus.completed
            → (initialJob "j" "v" 0).outputPaths = successPaths "out" ThumbOutcome.ok)) :=
  ⟨by decide,
    c10_outputPaths_atomic "out" "v" "j" 0 1 [] [EncodeResult.ok] ThumbOutcome.ok
      (initialJob "j" "v" 0) (by decide)⟩
